import Mathlib

/-!
Shallow embedding of `src/Lambda/route53_config_backup_function.py`
(aws-route53-backup): a Lambda handler that, on an AWS Config event for a
Route 53 hosted zone, fetches the zone and its record sets, builds a backup
document, writes it to S3, and reports a compliance evaluation to AWS Config.

External effects (event-field access, the Route 53 fetch, the bucket-name
environment lookup, the S3 put) are modelled by an `Env` record of
`Except`-valued outcomes; the handler body is a pure function from `Env` to
the list of calls it makes (its trace).
-/

namespace Route53Backup

/-- Characters of a Python `str.rstrip(".")`: drop every trailing `'.'`. -/
def rstripDots (l : List Char) : List Char :=
  (l.reverse.dropWhile (fun c => c = '.')).reverse

/-- Applies `name.rstrip(".")` on strings, as used by `HostedZoneDetails.normalized_name`. -/
def normalizeName (s : String) : String :=
  ⟨rstripDots s.data⟩

/-- Embeds the `ConfigItem` dataclass (resource fields pulled from the configuration item). -/
structure ConfigItem where
  resource_id : String
  resource_type : String
  configuration_item_status : String
deriving Repr, DecidableEq

/-- Python `str.split(sep)` for a one-character separator, on characters:
splitting keeps empty segments, and splitting the empty string yields one
empty segment. -/
def splitOnChar (sep : Char) : List Char → List (List Char)
  | [] => [[]]
  | c :: cs =>
    let rest := splitOnChar sep cs
    if c = sep then [] :: rest
    else
      match rest with
      | [] => [[c]]
      | r :: rs => (c :: r) :: rs

/-- Embeds `ConfigItem.hosted_zone_id`: `self.resource_id.split("/")[-1]`. -/
def ConfigItem.hosted_zone_id (c : ConfigItem) : String :=
  ⟨(splitOnChar '/' c.resource_id.data).getLastD []⟩

/-- Embeds `ConfigItem.trigger_type`: `"creation"` when the configuration item status
is `"resourcediscovered"`, else `"change"`. -/
def ConfigItem.trigger_type (c : ConfigItem) : String :=
  if c.configuration_item_status = "resourcediscovered" then "creation" else "change"

/-- A Python dict whose values are opaque blobs, as an association list. -/
abbrev Dict := List (String × String)

/-- Raw record-set dict coming back from `list_resource_record_sets`
(keys `Name`, `Type`, `TTL`, `ResourceRecords`, `AliasTarget`; any may be absent). -/
structure RecordData where
  nameField : Option String
  typeField : Option String
  ttlField : Option Int
  resourceRecordsField : Option (List Dict)
  aliasTargetField : Option Dict
deriving Repr, DecidableEq

/-- Embeds the `ResourceRecordSet` dataclass. -/
structure ResourceRecordSet where
  name : String
  type : String
  ttl : Option Int
  resource_records : List Dict
  alias_target : Option Dict
deriving Repr, DecidableEq

/-- Embeds `ResourceRecordSet.from_dict`: `.get` with defaults `""`, `None`, `[]`. -/
def ResourceRecordSet.from_dict (d : RecordData) : ResourceRecordSet :=
  { name := d.nameField.getD ""
    type := d.typeField.getD ""
    ttl := d.ttlField
    resource_records := d.resourceRecordsField.getD []
    alias_target := d.aliasTargetField }

/-- Embeds the `HostedZoneDetails` dataclass. `config` is the raw hosted-zone dict,
kept opaque (no claim inspects it). -/
structure HostedZoneDetails where
  id : String
  name : String
  config : String
  resource_record_sets : List ResourceRecordSet
deriving Repr, DecidableEq

/-- Embeds `HostedZoneDetails.normalized_name`: `self.name.rstrip(".")`. -/
def HostedZoneDetails.normalized_name (zd : HostedZoneDetails) : String :=
  normalizeName zd.name

/-- Embeds the `BackupMetadata` dataclass (timestamp and backup id are injected, since in
the source they default to the current time and a fresh uuid). -/
structure BackupMetadata where
  account_id : String
  hosted_zone_id : String
  hosted_zone_name : String
  trigger_type : String
  timestamp : String
  backup_id : String
deriving Repr, DecidableEq

/-- One serialized record in the backup document: `Name` and `Type` always
present; `TTL`, `ResourceRecords`, `AliasTarget` present only when truthy. -/
structure SerializedRecord where
  nameField : String
  typeField : String
  ttlField : Option Int
  resourceRecordsField : Option (List Dict)
  aliasTargetField : Option Dict
deriving Repr, DecidableEq

/-- The per-record serialization loop body of `create_backup_data`:
start from `{"Name": ..., "Type": ...}` and add each optional key only when
the Python value is truthy (`if rrs.ttl`, `if rrs.resource_records`,
`if rrs.alias_target`). -/
def serializeRecordSet (rrs : ResourceRecordSet) : SerializedRecord :=
  { nameField := rrs.name
    typeField := rrs.type
    ttlField := match rrs.ttl with
      | some t => if t ≠ 0 then some t else none
      | none => none
    resourceRecordsField :=
      if rrs.resource_records ≠ [] then some rrs.resource_records else none
    aliasTargetField := match rrs.alias_target with
      | some d => if d ≠ [] then some d else none
      | none => none }

/-- The backup document built by `create_backup_data`. -/
structure BackupData where
  metadata : BackupMetadata
  hostedZone : String
  resourceRecordSets : List SerializedRecord
deriving Repr, DecidableEq

/-- Embeds `create_backup_data`. -/
def create_backup_data (zd : HostedZoneDetails) (md : BackupMetadata) : BackupData :=
  { metadata := md
    hostedZone := zd.config
    resourceRecordSets := zd.resource_record_sets.map serializeRecordSet }

/-- The pagination/aggregation loop of `fetch_hosted_zone_details`:
`record_sets = []`, then for each page, for each record set in the page,
append `ResourceRecordSet.from_dict(record_set)`. -/
def collectRecordSets (pages : List (List RecordData)) : List ResourceRecordSet :=
  pages.foldl
    (fun acc page =>
      page.foldl (fun acc2 r => acc2 ++ [ResourceRecordSet.from_dict r]) acc)
    []

/-- What the Route 53 service returns to `fetch_hosted_zone_details`:
the hosted zone's `Name`, the raw zone dict, and the paginated record sets. -/
structure FetchedZone where
  zoneName : String
  zoneConfig : String
  pages : List (List RecordData)
deriving Repr, DecidableEq

/-- Embeds `fetch_hosted_zone_details`, given the service response. -/
def fetch_hosted_zone_details (zone_id : String) (fz : FetchedZone) : HostedZoneDetails :=
  { id := zone_id
    name := fz.zoneName
    config := fz.zoneConfig
    resource_record_sets := collectRecordSets fz.pages }

/-- The S3 object key built in the handler:
`f"route53-backup/{account_id}/{zone_details.normalized_name}/{trigger_type}-{metadata.timestamp}.json"`. -/
def s3Key (account_id zone_name trigger_type timestamp : String) : String :=
  "route53-backup/" ++ account_id ++ "/" ++ zone_name ++ "/" ++ trigger_type
    ++ "-" ++ timestamp ++ ".json"

/-- Embeds `upload_to_s3`: attempts the S3 put; any exception is caught inside and
turned into `False`, success returns `True`. The put outcome is the last
argument. -/
def upload_to_s3 (_data : BackupData) (_bucket_name _s3_key : String)
    (outcome : Except String Unit) : Bool :=
  match outcome with
  | .ok _ => true
  | .error _ => false

/-- The event fields the handler reads from the AWS Config event. -/
structure EventFields where
  resource_id : String
  account_id : String
  message_type : String
deriving Repr, DecidableEq

/-- The handler's trigger-type expression: `"change"` iff the invoking event's
message type is `"ConfigurationItemChangeNotification"`, else `"creation"`. -/
def triggerType (message_type : String) : String :=
  if message_type = "ConfigurationItemChangeNotification" then "change" else "creation"

/-- Outcomes of the handler's external steps for one invocation. -/
structure Env where
  extract : Except String EventFields
  fetch : Except String FetchedZone
  bucket : Except String String
  upload : Except String Unit
  timestamp : String
  backupId : String
deriving Repr

/-- A call the handler makes to an AWS service. -/
inductive Action where
  | fetchZone (zoneId : String)
  | putObject (key : String) (doc : BackupData)
  | putEvaluations (compliance : String) (annot : String)
deriving Repr, DecidableEq

/-- Initial value of the handler's `compliance` variable. -/
def initialCompliance : String := "NON_COMPLIANT"

/-- Initial value of the handler's `annotation` variable. -/
def annotInitial : String := ""

/-- Annotation set by the handler's `except` clause. -/
def annotError (e : String) : String :=
  "Error processing hosted zone: " ++ e

/-- Annotation set on a successful upload. -/
def annotSuccess (hosted_zone_id : String) : String :=
  "Successfully backed up hosted zone " ++ hosted_zone_id

/-- Annotation set when `upload_to_s3` returns `False`. -/
def annotFailure (hosted_zone_id : String) : String :=
  "Failed to upload backup for hosted zone " ++ hosted_zone_id

/-- The handler body as the sequence of AWS calls it makes. The `try` block
runs event-field extraction, the zone fetch, metadata/document/key
construction, the bucket-name lookup, and the upload; any raised exception
falls to the `except` clause, which keeps `compliance` at its current value
and overwrites `annotation`; `put_evaluations` then runs unconditionally
after the `try`/`except`. -/
def handlerTrace (env : Env) : List Action :=
  match env.extract with
  | .error e => [.putEvaluations initialCompliance (annotError e)]
  | .ok f =>
    let hosted_zone_id := f.resource_id
    let trigger_type := triggerType f.message_type
    match env.fetch with
    | .error e =>
        [.fetchZone hosted_zone_id, .putEvaluations initialCompliance (annotError e)]
    | .ok fz =>
      let zone_details := fetch_hosted_zone_details hosted_zone_id fz
      let metadata : BackupMetadata :=
        { account_id := f.account_id
          hosted_zone_id := hosted_zone_id
          hosted_zone_name := zone_details.normalized_name
          trigger_type := trigger_type
          timestamp := env.timestamp
          backup_id := env.backupId }
      let backup_data := create_backup_data zone_details metadata
      let key := s3Key f.account_id zone_details.normalized_name trigger_type metadata.timestamp
      match env.bucket with
      | .error e =>
          [.fetchZone hosted_zone_id, .putEvaluations initialCompliance (annotError e)]
      | .ok bucket_name =>
        if upload_to_s3 backup_data bucket_name key env.upload then
          [.fetchZone hosted_zone_id, .putObject key backup_data,
           .putEvaluations "COMPLIANT" (annotSuccess hosted_zone_id)]
        else
          [.fetchZone hosted_zone_id, .putObject key backup_data,
           .putEvaluations initialCompliance (annotFailure hosted_zone_id)]

/-- Recognize the evaluation-report call in a trace. -/
def evalOf : Action → Option (String × String)
  | .putEvaluations c a => some (c, a)
  | _ => none

/-- The (compliance, annotation) pairs reported in a trace. -/
def reportedEvals (env : Env) : List (String × String) :=
  (handlerTrace env).filterMap evalOf

/-- The single evaluation reported by an invocation. -/
def reportedEval (env : Env) : String × String :=
  (reportedEvals env).headD ("", "")

/-- A concrete invoking event whose resource id carries the `/hostedzone/` prefix. -/
def evFields0 : EventFields :=
  { resource_id := "/hostedzone/Z123ABC"
    account_id := "111122223333"
    message_type := "ConfigurationItemChangeNotification" }

/-- A concrete Route 53 response. -/
def fz0 : FetchedZone :=
  { zoneName := "example.com."
    zoneConfig := "zone-config"
    pages := [] }

/-- An invocation environment in which every external step succeeds. -/
def envOk : Env :=
  { extract := .ok evFields0
    fetch := .ok fz0
    bucket := .ok "backup-bucket"
    upload := .ok ()
    timestamp := "20240101T000000Z"
    backupId := "backup-0" }

/-- An invocation environment whose S3 put raises. -/
def envUploadFail : Env :=
  { envOk with upload := .error "AccessDenied" }

/-- A record set with every optional field absent or empty. -/
def rBare : ResourceRecordSet :=
  { name := "example.com."
    type := "NS"
    ttl := none
    resource_records := []
    alias_target := some [] }

/-- A record set whose TTL is present and equal to zero. -/
def rZeroTtl : ResourceRecordSet :=
  { name := "www.example.com."
    type := "A"
    ttl := some 0
    resource_records := [[("Value", "192.0.2.1")]]
    alias_target := none }

/-- A raw record dict with every key absent. -/
def rdEmpty : RecordData :=
  { nameField := none
    typeField := none
    ttlField := none
    resourceRecordsField := none
    aliasTargetField := none }

/-- Concrete zone details. -/
def zdBare : HostedZoneDetails :=
  { id := "Z123ABC"
    name := "example.com."
    config := "zone-config"
    resource_record_sets := [rBare] }

/-- Concrete backup metadata. -/
def mdBare : BackupMetadata :=
  { account_id := "111122223333"
    hosted_zone_id := "Z123ABC"
    hosted_zone_name := "example.com"
    trigger_type := "change"
    timestamp := "20240101T000000Z"
    backup_id := "backup-0" }

/-! ## Helper lemmas -/

theorem foldl_append_singleton {α β : Type} (f : α → β) :
    ∀ (page : List α) (acc : List β),
      page.foldl (fun a r => a ++ [f r]) acc = acc ++ page.map f := by
  intro page
  induction page with
  | nil => intro acc; simp
  | cons r rs ih => intro acc; simp [ih]

theorem collectRecordSets_eq (pages : List (List RecordData)) :
    collectRecordSets pages = pages.flatten.map ResourceRecordSet.from_dict := by
  suffices h : ∀ acc,
      pages.foldl
        (fun acc page =>
          page.foldl (fun acc2 r => acc2 ++ [ResourceRecordSet.from_dict r]) acc) acc
        = acc ++ pages.flatten.map ResourceRecordSet.from_dict by
    simpa [collectRecordSets] using h []
  induction pages with
  | nil => intro acc; simp
  | cons p ps ih =>
    intro acc
    rw [List.foldl_cons, foldl_append_singleton, ih, List.flatten_cons,
      List.map_append, List.append_assoc]

theorem rstripDots_idem (l : List Char) : rstripDots (rstripDots l) = rstripDots l := by
  simp [rstripDots, List.dropWhile_idempotent]

theorem head?_dropWhile_not {α : Type} (p : α → Bool) :
    ∀ (l : List α) (c : α), (l.dropWhile p).head? = some c → p c = false := by
  intro l
  induction l with
  | nil => intro c hc; simp at hc
  | cons a as ih =>
    intro c hc
    rw [List.dropWhile_cons] at hc
    by_cases hp : p a = true
    · rw [if_pos hp] at hc
      exact ih c hc
    · rw [if_neg hp] at hc
      simp only [List.head?_cons, Option.some.injEq] at hc
      rw [← hc]
      exact Bool.eq_false_iff.mpr hp

theorem rstripDots_no_trailing (l : List Char) :
    (rstripDots l).getLast? ≠ some '.' := by
  unfold rstripDots
  rw [List.getLast?_reverse]
  intro hcontra
  have := head?_dropWhile_not (fun c => decide (c = '.')) l.reverse '.' hcontra
  simp at this

theorem rstripDots_no_dot (l : List Char) (h : l.getLast? ≠ some '.') :
    rstripDots l = l := by
  unfold rstripDots
  cases hl : l.reverse with
  | nil =>
    have : l = [] := by simpa using congrArg List.reverse hl
    simp [this]
  | cons c cs =>
    have hc : ¬ (c = '.') := by
      intro hcd
      apply h
      rw [← List.head?_reverse, hl, hcd]
      rfl
    rw [List.dropWhile_cons, if_neg (by simpa using hc), ← hl, List.reverse_reverse]

theorem rstripDots_decomp (l : List Char) :
    ∃ n, l = rstripDots l ++ List.replicate n '.' := by
  refine ⟨(l.reverse.takeWhile (fun c => c = '.')).length, ?_⟩
  have h2 : (l.reverse.takeWhile (fun c => decide (c = '.'))).reverse
      = List.replicate (l.reverse.takeWhile (fun c => decide (c = '.'))).length '.' := by
    rw [List.eq_replicate_iff]
    refine ⟨by simp, ?_⟩
    intro b hb
    have := List.mem_takeWhile_imp (List.mem_reverse.mp hb)
    simpa using this
  conv_lhs => rw [← List.reverse_reverse l,
    ← List.takeWhile_append_dropWhile (fun c => decide (c = '.')) l.reverse]
  rw [List.reverse_append, h2]
  rfl

theorem append_mid_cancel {α : Type} {p s x y : List α}
    (h : p ++ (x ++ s) = p ++ (y ++ s)) : x = y :=
  List.append_cancel_right (List.append_cancel_left h)

/-! ## Claim theorems -/

/-- C5 counterexample: on the name `"a.."` a trailing terminator is present,
yet `normalizeName` (the embedding of `HostedZoneDetails.normalized_name`'s
`rstrip(".")`) removes both dots, not exactly one, so the result differs from
`"a."`. -/
theorem normalized_name_strips_two_dots_cex :
    normalizeName "a.." = "a" ∧ normalizeName "a.." ≠ "a." := by
  constructor
  · decide
  · decide

/-- C5 (amended): `HostedZoneDetails.normalized_name` strips all trailing
terminators (equivalently: exactly one when at most one is present), is a
no-op when no trailing terminator is present, never leaves a trailing
terminator, only removes trailing dots, and is idempotent. -/
theorem normalized_name_strips_trailing_dots (zd : HostedZoneDetails) :
    (zd.name.data.getLast? ≠ some '.' → zd.normalized_name = zd.name)
    ∧ normalizeName zd.normalized_name = zd.normalized_name
    ∧ zd.normalized_name.data.getLast? ≠ some '.'
    ∧ ∃ n, zd.name.data = zd.normalized_name.data ++ List.replicate n '.' := by
  refine ⟨?_, ?_, ?_, ?_⟩
  · intro h
    apply String.ext
    simp [HostedZoneDetails.normalized_name, normalizeName, rstripDots_no_dot _ h]
  · apply String.ext
    simp [HostedZoneDetails.normalized_name, normalizeName, rstripDots_idem]
  · simpa [HostedZoneDetails.normalized_name, normalizeName]
      using rstripDots_no_trailing zd.name.data
  · simpa [HostedZoneDetails.normalized_name, normalizeName]
      using rstripDots_decomp zd.name.data

/-- Witness for the C5 amended theorem at a name with no trailing terminator. -/
theorem normalized_name_strips_trailing_dots_witness :
    ({ zdBare with name := "example.com" } : HostedZoneDetails).normalized_name
      = "example.com" :=
  (normalized_name_strips_trailing_dots { zdBare with name := "example.com" }).1
    (by decide)

/-- C6: the handler's trigger type is `"change"` iff the event's message type
equals `"ConfigurationItemChangeNotification"`, and `"creation"` for every
other message type; the trigger type recorded in the backup document's
metadata is exactly this function of the event's message type. -/
theorem trigger_type_change_iff (mt : String) :
    (triggerType mt = "change" ↔ mt = "ConfigurationItemChangeNotification")
    ∧ (mt ≠ "ConfigurationItemChangeNotification" → triggerType mt = "creation")
    ∧ ∀ (env : Env) (f : EventFields), env.extract = .ok f →
        ∀ k d, Action.putObject k d ∈ handlerTrace env →
          d.metadata.trigger_type = triggerType f.message_type := by
  refine ⟨?_, ?_, ?_⟩
  · unfold triggerType
    by_cases h : mt = "ConfigurationItemChangeNotification"
    · simp [h]
    · simp only [if_neg h]
      constructor
      · intro hcontra; exact absurd hcontra (by decide)
      · intro hcontra; exact absurd hcontra h
  · intro h
    simp [triggerType, h]
  · intro env f hf k d hmem
    obtain ⟨ex, fe, bu, up, ts, bid⟩ := env
    simp only at hf
    subst hf
    cases fe with
    | error e => simp [handlerTrace] at hmem
    | ok fz =>
      cases bu with
      | error e => simp [handlerTrace] at hmem
      | ok bn =>
        cases up with
        | error e =>
          simp [handlerTrace, upload_to_s3] at hmem
          obtain ⟨hk, hd⟩ := hmem
          subst hd
          rfl
        | ok u =>
          simp [handlerTrace, upload_to_s3] at hmem
          obtain ⟨hk, hd⟩ := hmem
          subst hd
          rfl

/-- Witness for C6 at a non-change message type and a concrete environment. -/
theorem trigger_type_change_iff_witness :
    triggerType "ScheduledNotification" = "creation" :=
  (trigger_type_change_iff "ScheduledNotification").2.1 (by decide)

/-- C7: the storage key is exactly
`route53-backup/{accountId}/{normalizedZoneName}/{triggerType}-{timestamp}.json`:
equal inputs give the identical key, and changing any single one of the four
inputs while fixing the other three changes the key. -/
theorem s3_key_deterministic_and_input_sensitive (a a' z z' t t' ts ts' : String) :
    (a = a' ∧ z = z' ∧ t = t' ∧ ts = ts' → s3Key a z t ts = s3Key a' z' t' ts')
    ∧ (a ≠ a' → s3Key a z t ts ≠ s3Key a' z t ts)
    ∧ (z ≠ z' → s3Key a z t ts ≠ s3Key a z' t ts)
    ∧ (t ≠ t' → s3Key a z t ts ≠ s3Key a z t' ts)
    ∧ (ts ≠ ts' → s3Key a z t ts ≠ s3Key a z t ts') := by
  refine ⟨?_, ?_, ?_, ?_, ?_⟩
  · rintro ⟨rfl, rfl, rfl, rfl⟩; rfl
  · intro hne heq
    apply hne
    apply String.ext
    have h := congrArg String.data heq
    simp only [s3Key, String.data_append, List.append_assoc] at h
    exact List.append_cancel_right (List.append_cancel_left h)
  · intro hne heq
    apply hne
    apply String.ext
    have h := congrArg String.data heq
    simp only [s3Key, String.data_append, List.append_assoc] at h
    exact List.append_cancel_right (List.append_cancel_left
      (List.append_cancel_left (List.append_cancel_left h)))
  · intro hne heq
    apply hne
    apply String.ext
    have h := congrArg String.data heq
    simp only [s3Key, String.data_append, List.append_assoc] at h
    exact List.append_cancel_right (List.append_cancel_left
      (List.append_cancel_left (List.append_cancel_left
        (List.append_cancel_left (List.append_cancel_left h)))))
  · intro hne heq
    apply hne
    apply String.ext
    have h := congrArg String.data heq
    simp only [s3Key, String.data_append, List.append_assoc] at h
    exact List.append_cancel_right (List.append_cancel_left
      (List.append_cancel_left (List.append_cancel_left
        (List.append_cancel_left (List.append_cancel_left
          (List.append_cancel_left (List.append_cancel_left h)))))))

/-- Witness for C7: two keys differing only in the account id differ. -/
theorem s3_key_deterministic_and_input_sensitive_witness :
    s3Key "111122223333" "example.com" "change" "20240101T000000Z"
      ≠ s3Key "999988887777" "example.com" "change" "20240101T000000Z" :=
  (s3_key_deterministic_and_input_sensitive
    "111122223333" "999988887777" "example.com" "example.com"
    "change" "change" "20240101T000000Z" "20240101T000000Z").2.1 (by decide)

/-- C8: the document builder re-serializes every record set itself: `Name` and
`Type` are always present, while an absent TTL, an empty record list, and an
absent or empty alias target are omitted (no placeholder), for arbitrary
upstream zone details. -/
theorem builder_omits_empty_optional_fields (zd : HostedZoneDetails)
    (md : BackupMetadata) :
    (create_backup_data zd md).resourceRecordSets
        = zd.resource_record_sets.map serializeRecordSet
    ∧ ∀ r : ResourceRecordSet,
        (serializeRecordSet r).nameField = r.name
        ∧ (serializeRecordSet r).typeField = r.type
        ∧ (r.ttl = none → (serializeRecordSet r).ttlField = none)
        ∧ (r.resource_records = [] → (serializeRecordSet r).resourceRecordsField = none)
        ∧ (r.alias_target = none ∨ r.alias_target = some [] →
            (serializeRecordSet r).aliasTargetField = none) := by
  refine ⟨rfl, ?_⟩
  intro r
  refine ⟨rfl, rfl, ?_, ?_, ?_⟩
  · intro h; simp [serializeRecordSet, h]
  · intro h; simp [serializeRecordSet, h]
  · rintro (h | h) <;> simp [serializeRecordSet, h]

/-- Witness for C8 at a record with an empty alias target. -/
theorem builder_omits_empty_optional_fields_witness :
    (serializeRecordSet rBare).aliasTargetField = none :=
  ((builder_omits_empty_optional_fields zdBare mdBare).2 rBare).2.2.2.2
    (Or.inr (by decide))

/-- C9: the pagination aggregation of `fetch_hosted_zone_details` equals the
flattening of the pages in page-then-within-page order (no deduplication, no
sorting), its length is the sum of the page lengths, and pages of sizes
`[3,2,0,5]` aggregate to a sequence of length 10. -/
theorem pagination_preserves_order_and_count (pages : List (List RecordData)) :
    collectRecordSets pages = pages.flatten.map ResourceRecordSet.from_dict
    ∧ (collectRecordSets pages).length = (pages.map List.length).sum
    ∧ ∀ p1 p2 p3 p4 : List RecordData,
        p1.length = 3 → p2.length = 2 → p3.length = 0 → p4.length = 5 →
        (collectRecordSets [p1, p2, p3, p4]).length = 10 := by
  refine ⟨collectRecordSets_eq pages, ?_, ?_⟩
  · simp [collectRecordSets_eq, List.length_flatten, Function.comp_def]
  · intro p1 p2 p3 p4 h1 h2 h3 h4
    simp [collectRecordSets_eq, List.length_flatten, Function.comp_def, h1, h2, h3, h4]

/-- Witness for C9 at concrete pages of sizes 3, 2, 0 and 5. -/
theorem pagination_preserves_order_and_count_witness :
    (collectRecordSets
      [List.replicate 3 rdEmpty, List.replicate 2 rdEmpty, [],
        List.replicate 5 rdEmpty]).length = 10 :=
  (pagination_preserves_order_and_count []).2.2
    (List.replicate 3 rdEmpty) (List.replicate 2 rdEmpty) []
    (List.replicate 5 rdEmpty) (by simp) (by simp) rfl (by simp)

/-- C10: a record whose TTL is present and equal to 0 is serialized without a
TTL field (the builder tests truthiness, not presence), so a zero TTL is
indistinguishable in the backup output from an absent TTL. -/
theorem zero_ttl_omitted (r : ResourceRecordSet) :
    (r.ttl = some 0 → (serializeRecordSet r).ttlField = none)
    ∧ serializeRecordSet { r with ttl := some 0 }
        = serializeRecordSet { r with ttl := none } := by
  constructor
  · intro h; simp [serializeRecordSet, h]
  · simp [serializeRecordSet]

/-- Witness for C10 at a concrete record with TTL 0. -/
theorem zero_ttl_omitted_witness :
    (serializeRecordSet rZeroTtl).ttlField = none :=
  (zero_ttl_omitted rZeroTtl).1 (by decide)

theorem annotSuccess_ne_empty (rid : String) : annotSuccess rid ≠ "" := by
  intro h
  have h1 := congrArg String.length h
  rw [annotSuccess, String.length_append] at h1
  have h2 : ("Successfully backed up hosted zone " : String).length = 35 := by decide
  have h3 : ("" : String).length = 0 := rfl
  rw [h2, h3] at h1
  omega

/-- C1: every invocation reports exactly one evaluation — on normal
completion, on a caught storage failure, and on an uncaught exception in any
upstream step (event-field extraction, the zone fetch, the bucket-name
lookup) — and the evaluation report is the last call the handler makes. -/
theorem put_evaluations_exactly_once (env : Env) :
    (handlerTrace env).countP (fun a => (evalOf a).isSome) = 1
    ∧ ∃ c an, (handlerTrace env).getLast? = some (.putEvaluations c an) := by
  obtain ⟨ex, fe, bu, up, ts, bid⟩ := env
  cases ex with
  | error e => exact ⟨rfl, _, _, rfl⟩
  | ok f =>
    cases fe with
    | error e => exact ⟨rfl, _, _, rfl⟩
    | ok fz =>
      cases bu with
      | error e => exact ⟨rfl, _, _, rfl⟩
      | ok bn =>
        cases up with
        | error e => exact ⟨rfl, _, _, rfl⟩
        | ok u => exact ⟨rfl, _, _, rfl⟩

/-- C3: the verdict starts as `NON_COMPLIANT` with an empty annotation, the
reported verdict is `COMPLIANT` exactly when every step succeeded and the
storage write returned true (and then the annotation is non-empty), and on
every other path the reported verdict is the initial `NON_COMPLIANT`. -/
theorem compliance_verdict_invariant (env : Env) :
    initialCompliance = "NON_COMPLIANT"
    ∧ annotInitial = ""
    ∧ ((reportedEval env).1 = "COMPLIANT" ↔
        (∃ f, env.extract = .ok f) ∧ (∃ fz, env.fetch = .ok fz)
        ∧ (∃ b, env.bucket = .ok b)
        ∧ (∀ d bn k, upload_to_s3 d bn k env.upload = true))
    ∧ ((reportedEval env).1 = "COMPLIANT" → (reportedEval env).2 ≠ "")
    ∧ ((reportedEval env).1 ≠ "COMPLIANT" → (reportedEval env).1 = initialCompliance) := by
  have hne : ("NON_COMPLIANT" : String) ≠ "COMPLIANT" := by decide
  obtain ⟨ex, fe, bu, up, ts, bid⟩ := env
  cases ex with
  | error e =>
    refine ⟨rfl, rfl, ⟨fun h => absurd h hne, ?_⟩, fun h => absurd h hne, fun _ => rfl⟩
    rintro ⟨⟨f, hf⟩, -⟩
    exact Except.noConfusion hf
  | ok f =>
    cases fe with
    | error e =>
      refine ⟨rfl, rfl, ⟨fun h => absurd h hne, ?_⟩, fun h => absurd h hne, fun _ => rfl⟩
      rintro ⟨-, ⟨fz, hfz⟩, -⟩
      exact Except.noConfusion hfz
    | ok fz =>
      cases bu with
      | error e =>
        refine ⟨rfl, rfl, ⟨fun h => absurd h hne, ?_⟩, fun h => absurd h hne, fun _ => rfl⟩
        rintro ⟨-, -, ⟨b, hb⟩, -⟩
        exact Except.noConfusion hb
      | ok bn =>
        cases up with
        | error e =>
          refine ⟨rfl, rfl, ⟨fun h => absurd h hne, ?_⟩, fun h => absurd h hne, fun _ => rfl⟩
          rintro ⟨-, -, -, hup⟩
          exact Bool.noConfusion (hup ⟨mdBare, "", []⟩ "" "")
        | ok u =>
          cases u
          refine ⟨rfl, rfl, ⟨fun _ => ⟨⟨f, rfl⟩, ⟨fz, rfl⟩, ⟨bn, rfl⟩, fun _ _ _ => rfl⟩,
            fun _ => rfl⟩, fun _ => annotSuccess_ne_empty f.resource_id,
            fun h => absurd rfl h⟩

/-- Witness for C3: in an all-success environment the COMPLIANT annotation is
non-empty. -/
theorem compliance_verdict_invariant_witness :
    (reportedEval envOk).2 ≠ "" :=
  (compliance_verdict_invariant envOk).2.2.2.1 rfl

/-- C4: when the storage write raises, the exception is caught at the storage
boundary and converted to a false success signal, the handler still reports
exactly one evaluation, with the initial `NON_COMPLIANT` verdict and an
annotation naming the upload failure, and no exception escapes (the trace is
the normal three-call trace). -/
theorem storage_failure_caught_and_reported (env : Env) (f : EventFields)
    (fz : FetchedZone) (b e : String)
    (h1 : env.extract = .ok f) (h2 : env.fetch = .ok fz)
    (h3 : env.bucket = .ok b) (h4 : env.upload = .error e) :
    (∀ d bn k, upload_to_s3 d bn k env.upload = false)
    ∧ reportedEvals env = [(initialCompliance, annotFailure f.resource_id)]
    ∧ initialCompliance = "NON_COMPLIANT"
    ∧ "Failed to upload backup for hosted zone ".data <+: (annotFailure f.resource_id).data := by
  obtain ⟨ex, fe, bu, up, ts, bid⟩ := env
  dsimp only at h1 h2 h3 h4
  subst h1; subst h2; subst h3; subst h4
  refine ⟨fun d bn k => rfl, rfl, rfl, ?_⟩
  exact ⟨f.resource_id.data, by rw [annotFailure, String.data_append]⟩

/-- Witness for C4 at a concrete environment whose S3 put raises. -/
theorem storage_failure_caught_and_reported_witness :
    reportedEvals envUploadFail
      = [(initialCompliance, annotFailure "/hostedzone/Z123ABC")] :=
  (storage_failure_caught_and_reported envUploadFail evFields0 fz0
    "backup-bucket" "AccessDenied" rfl rfl rfl rfl).2.1

/-- C2 counterexample: at resource id `"/hostedzone/Z123ABC"` the identifier
the pipeline passes to the zone fetch is the raw `"/hostedzone/Z123ABC"`, not
the last path segment `"Z123ABC"` computed by `ConfigItem.hosted_zone_id`. -/
theorem pipeline_uses_raw_resource_id_cex :
    (handlerTrace envOk).head? = some (.fetchZone "/hostedzone/Z123ABC")
    ∧ ConfigItem.hosted_zone_id
        ⟨"/hostedzone/Z123ABC", "AWS::Route53::HostedZone", "ok"⟩ = "Z123ABC"
    ∧ ("/hostedzone/Z123ABC" : String) ≠ "Z123ABC" :=
  ⟨rfl, by decide, by decide⟩

/-- C2 (amended): `ConfigItem.hosted_zone_id` computes the last path segment
of the raw resource id (`"/hostedzone/Z123ABC"` yields `"Z123ABC"`), but the
handler pipeline never uses it: the identifier passed to the zone fetch,
stored in the backup metadata, and named in the annotation is the event's raw
resource id unchanged. -/
theorem pipeline_zone_identity_amended :
    (∀ (env : Env) (f : EventFields) (fz : FetchedZone) (b : String),
      env.extract = .ok f → env.fetch = .ok fz → env.bucket = .ok b →
      env.upload = .ok () →
      ∃ key doc,
        handlerTrace env
          = [.fetchZone f.resource_id, .putObject key doc,
             .putEvaluations "COMPLIANT" (annotSuccess f.resource_id)]
        ∧ doc.metadata.hosted_zone_id = f.resource_id)
    ∧ ConfigItem.hosted_zone_id
        ⟨"/hostedzone/Z123ABC", "AWS::Route53::HostedZone", "ok"⟩ = "Z123ABC" := by
  constructor
  · intro env f fz b h1 h2 h3 h4
    obtain ⟨ex, fe, bu, up, ts, bid⟩ := env
    dsimp only at h1 h2 h3 h4
    subst h1; subst h2; subst h3; subst h4
    exact ⟨_, _, rfl, rfl⟩
  · decide

/-- Witness for the C2 amended theorem at a concrete all-success environment. -/
theorem pipeline_zone_identity_amended_witness :
    ∃ key doc,
      handlerTrace envOk
        = [.fetchZone "/hostedzone/Z123ABC", .putObject key doc,
           .putEvaluations "COMPLIANT" (annotSuccess "/hostedzone/Z123ABC")]
      ∧ doc.metadata.hosted_zone_id = "/hostedzone/Z123ABC" :=
  pipeline_zone_identity_amended.1 envOk evFields0 fz0 "backup-bucket"
    rfl rfl rfl rfl

end Route53Backup
